import Mathlib

/-!
Shallow embedding of the order/payment core of the online-cinema service:
`src/routes/orders.py`, `src/routes/payments.py`, the helper
`fetch_existing_cart` from `src/routes/carts.py`, and the SQLAlchemy models in
`src/database/models/`.

Modelling conventions:
* Database tables are Lean lists of row structures; an autoincrement primary
  key is modelled by a single `next_id` counter (every freshly inserted row
  receives the next value, as `db.flush()` does).
* `Decimal(10, 2)` monetary amounts are integers counted in cents; decimal
  arithmetic with two fractional digits over `+` is exact, so sums are
  faithful.  `int(amount * 100)` in `create_stripe_payment_intent` is then the
  identity on the already-cent-valued amount.
* A request handler is a function from the persisted state (`DB`) to
  `Except ApiError` of the new state and the response.  An `HTTPException` (or
  an uncaught Python exception) raised before `db.commit()` leaves the
  persisted state unchanged, because the session produced by `get_db` is
  discarded without committing; the `Except.error` branch therefore carries no
  state.
* Calls to the external Stripe gateway are recorded in a call list returned
  next to the `Except` result, and the gateway's answer is an explicit input
  of the handler; background e-mail tasks and timestamps play no role in any
  claim and are not modelled.
-/

namespace OnlineCinema

/-- `OrderStatus` from `src/database/models/orders.py`. -/
inductive OrderStatus
  | PENDING
  | PAID
  | CANCELED
deriving DecidableEq, Repr

/-- `PaymentStatus` from `src/database/models/payments.py`. -/
inductive PaymentStatus
  | pending
  | successful
  | canceled
  | refunded
deriving DecidableEq, Repr

/-- The columns of `Movie` used by the order pipeline (`movies.py`): the
primary key, the display name and the `DECIMAL(10, 2)` price (in cents). -/
structure Movie where
  id : Nat
  name : String
  price : Int
deriving DecidableEq, Repr

/-- The columns of `User` used by the order/payment routes: the primary key,
the e-mail address and the name of the user's group (`accounts.py`). -/
structure UserRow where
  id : Nat
  email : String
  group_name : String
deriving DecidableEq, Repr

/-- `Cart` row (`carts.py`): primary key and owner. -/
structure Cart where
  id : Nat
  user_id : Nat
deriving DecidableEq, Repr

/-- `CartItem` row (`carts.py`). -/
structure CartItem where
  id : Nat
  cart_id : Nat
  movie_id : Nat
deriving DecidableEq, Repr

/-- `Order` row (`orders.py`). -/
structure Order where
  id : Nat
  user_id : Nat
  status : OrderStatus
  total_amount : Int
deriving DecidableEq, Repr

/-- `OrderItem` row (`orders.py`). -/
structure OrderItem where
  id : Nat
  order_id : Nat
  movie_id : Nat
  price_at_order : Int
deriving DecidableEq, Repr

/-- `Payment` row (`payments.py` model).  `external_payment_id` and
`payment_method` are nullable `String(255)` columns. -/
structure Payment where
  id : Nat
  user_id : Nat
  order_id : Nat
  status : PaymentStatus
  amount : Int
  external_payment_id : Option String
  payment_method : Option String
deriving DecidableEq, Repr

/-- `PaymentItem` row (`payments.py` model). -/
structure PaymentItem where
  id : Nat
  payment_id : Nat
  order_item_id : Nat
  price_at_payment : Int
deriving DecidableEq, Repr

/-- The persisted state: one list per relational table plus the autoincrement
counter shared by all tables (ids only need to be fresh, which one counter
gives). -/
structure DB where
  users : List UserRow
  movies : List Movie
  carts : List Cart
  cart_items : List CartItem
  orders : List Order
  order_items : List OrderItem
  payments : List Payment
  payment_items : List PaymentItem
  next_id : Nat
deriving DecidableEq, Repr

/-- Error responses of the routes.  `notFound`, `badRequest`, `forbidden` and
`internalError` are `HTTPException`s with status 404, 400, 403 and 500;
`attributeError` is an uncaught Python `AttributeError` (surfaced by the
framework as a 500 response).  In the spec's taxonomy `badRequest` covers
`ValidationError`/`ConflictError`, `forbidden` is `AccessDeniedError`, and
`internalError` covers `GatewayError`. -/
inductive ApiError
  | notFound (detail : String)
  | badRequest (detail : String)
  | forbidden (detail : String)
  | internalError (detail : String)
  | attributeError (msg : String)
deriving DecidableEq, Repr

/-- One call made to the Stripe gateway. -/
inductive StripeCall
  | paymentIntentCreate (amount_cents : Int) (currency : String)
  | refundCreate (payment_intent : Option String)
deriving DecidableEq, Repr

/-- The gateway's reaction to `stripe.Refund.create`: either a raised
`StripeError` or a refund object carrying a status string. -/
inductive StripeRefundOutcome
  | raised (msg : String)
  | refund (refund_status : String)
deriving DecidableEq, Repr

/-- The gateway's reaction to `stripe.PaymentIntent.create`: either a raised
`StripeError` or an intent with an id and a client secret. -/
inductive StripeIntentOutcome
  | raised (msg : String)
  | intent (id : String) (client_secret : String)
deriving DecidableEq, Repr

/-- `settings.STRIPE_CURRENCY` (default `"usd"` in `settings.py`). -/
def STRIPE_CURRENCY : String := "usd"

/-- Replace the first element of a list satisfying `p` by its image under `f`
(the SQLAlchemy pattern `result.scalars().first()` followed by an attribute
assignment and `commit` mutates exactly that row). -/
def updateFirst {α : Type} (p : α → Bool) (f : α → α) : List α → List α
  | [] => []
  | a :: as => if p a then f a :: as else a :: updateFirst p f as

/-- `create_stripe_payment_intent` (`payments.py` lines 30-42): calls
`stripe.PaymentIntent.create` for `int(amount * 100)` (the cent value of the
decimal amount, here already in cents) in the configured currency; a raised
`StripeError` becomes a 500 `HTTPException`.  The gateway call is recorded,
its answer is the explicit `outcome` input. -/
def create_stripe_payment_intent (amount : Int) (outcome : StripeIntentOutcome) :
    List StripeCall × Except ApiError (String × String) :=
  ([StripeCall.paymentIntentCreate amount STRIPE_CURRENCY],
    match outcome with
    | .raised msg => .error (.internalError ("Stripe error: " ++ msg))
    | .intent i cs => .ok (i, cs))

/-- `PaymentCreate` request schema (`schemas/payments.py`);
`external_payment_id` is a required string there. -/
structure PaymentCreate where
  order_id : Nat
  amount : Int
  payment_method : Option String
  external_payment_id : String
deriving DecidableEq, Repr

/-- `PaymentItemResponse` (`schemas/payments.py`). -/
structure PaymentItemResponse where
  id : Nat
  payment_id : Nat
  order_item_id : Nat
  price_at_payment : Int
deriving DecidableEq, Repr

/-- `PaymentResponse` (`schemas/payments.py`), without the timestamp. -/
structure PaymentResponse where
  id : Nat
  user_id : Nat
  order_id : Nat
  status : PaymentStatus
  amount : Int
  external_payment_id : Option String
  payment_method : Option String
  client_secret : Option String
  payment_items : List PaymentItemResponse
deriving DecidableEq, Repr

/-- `create_payment` (`payments.py` lines 45-113).  Looks the order up by
primary key (404 when absent), inserts a `pending` payment for the order's
`total_amount`, loads the order's items (400 when there are none, discarding
the flushed-but-uncommitted payment), inserts one `PaymentItem` per order
item, commits, and builds the response with the hard-coded
`client_secret="mock_client_secret_123"`.  It makes no gateway call: the
returned call list is always empty. -/
def create_payment (payment_data : PaymentCreate) (current_user_id : Nat) (db : DB) :
    List StripeCall × Except ApiError (DB × PaymentResponse) :=
  ([],
    match db.orders.find? (fun o => o.id == payment_data.order_id) with
    | none => .error (.notFound "Order not found")
    | some order =>
      let new_payment : Payment :=
        { id := db.next_id
          user_id := current_user_id
          order_id := order.id
          status := PaymentStatus.pending
          amount := order.total_amount
          external_payment_id := some payment_data.external_payment_id
          payment_method := payment_data.payment_method }
      let order_items := db.order_items.filter (fun i => i.order_id == order.id)
      if order_items.isEmpty then
        .error (.badRequest "No items in order")
      else
        let payment_items :=
          (order_items.enum).map (fun e =>
            { id := db.next_id + 1 + e.1
              payment_id := new_payment.id
              order_item_id := e.2.id
              price_at_payment := e.2.price_at_order : PaymentItem })
        let db2 : DB :=
          { db with
            payments := db.payments ++ [new_payment]
            payment_items := db.payment_items ++ payment_items
            next_id := db.next_id + 1 + order_items.length }
        let payment_item_objs :=
          db2.payment_items.filter (fun x => x.payment_id == new_payment.id)
        .ok (db2,
          { id := new_payment.id
            user_id := new_payment.user_id
            order_id := new_payment.order_id
            status := new_payment.status
            amount := new_payment.amount
            external_payment_id := new_payment.external_payment_id
            payment_method := new_payment.payment_method
            client_secret := some "mock_client_secret_123"
            payment_items :=
              payment_item_objs.map (fun item =>
                { id := item.id
                  payment_id := item.payment_id
                  order_item_id := item.order_item_id
                  price_at_payment := item.price_at_payment }) }))

/-- `refund_payment` (`payments.py` lines 116-184).  Looks the payment up by
id and owner (404 when absent), rejects any status other than `successful`
with a 400 before touching the gateway, then calls `stripe.Refund.create`;
a raised `StripeError` is a 500, a refund whose status is not `"succeeded"`
is a 400, and on `"succeeded"` the payment's status becomes `refunded`. -/
def refund_payment (payment_id : Nat) (current_user_id : Nat)
    (gateway : StripeRefundOutcome) (db : DB) :
    List StripeCall × Except ApiError (DB × Payment) :=
  match db.payments.find? (fun p => p.id == payment_id && p.user_id == current_user_id) with
  | none => ([], .error (.notFound "Payment not found"))
  | some payment =>
    if payment.status != PaymentStatus.successful then
      ([], .error (.badRequest "Only successful payments can be refunded"))
    else
      ([StripeCall.refundCreate payment.external_payment_id],
        match gateway with
        | .raised msg => .error (.internalError ("Stripe refund error: " ++ msg))
        | .refund refund_status =>
          if refund_status == "succeeded" then
            let db2 : DB :=
              { db with
                payments :=
                  updateFirst
                    (fun p => p.id == payment_id && p.user_id == current_user_id)
                    (fun p => { p with status := PaymentStatus.refunded })
                    db.payments }
            .ok (db2, { payment with status := PaymentStatus.refunded })
          else
            .error (.badRequest
              ("Refund was not successful. Stripe returned status: " ++ refund_status)))

/-- The `data.object` of a Stripe event: for `payment_intent.*` events the
handler reads `data["id"]`, for `charge.refunded` it reads
`data["payment_intent"]`. -/
structure StripeEventData where
  id : String
  payment_intent : String
deriving DecidableEq, Repr

/-- A verified Stripe webhook event, as produced by
`stripe.Webhook.construct_event`: the event type string and the event data. -/
structure StripeEvent where
  type : String
  data : StripeEventData
deriving DecidableEq, Repr

/-- The inner coroutine `update_payment_status` of `stripe_webhook`
(`payments.py` lines 269-286): looks the payment up by `external_payment_id`
with `.first()` and then executes `payment.status = new_status` and commits,
with no check of the current status; when the lookup returned `None`, the
attribute assignment raises `AttributeError` and nothing is committed. -/
def update_payment_status (db : DB) (external_id : String) (new_status : PaymentStatus) :
    Except ApiError DB :=
  match db.payments.find? (fun p => p.external_payment_id == some external_id) with
  | none => .error (.attributeError "NoneType object has no attribute status")
  | some _ =>
    .ok { db with
          payments :=
            updateFirst (fun p => p.external_payment_id == some external_id)
              (fun p => { p with status := new_status })
              db.payments }

/-- The dispatch of `stripe_webhook` (`payments.py` lines 266-303) after
signature verification succeeded (lines 245-264 reject requests with a
missing header or an invalid signature before any state is read; the claims
below are about verified events, so the model starts from the verified
event).  On the three recognized event types it runs `update_payment_status`
with the instructed status; every other event type falls through to the
acknowledgement `{"status": "success"}`. -/
def stripe_webhook (db : DB) (event : StripeEvent) :
    Except ApiError (DB × String) :=
  if event.type == "payment_intent.succeeded" then
    (update_payment_status db event.data.id PaymentStatus.successful).map
      (fun db2 => (db2, "success"))
  else if event.type == "payment_intent.canceled" then
    (update_payment_status db event.data.id PaymentStatus.canceled).map
      (fun db2 => (db2, "success"))
  else if event.type == "charge.refunded" then
    (update_payment_status db event.data.payment_intent PaymentStatus.refunded).map
      (fun db2 => (db2, "success"))
  else
    .ok (db, "success")

/-- `check_user_access` (`orders.py` lines 30-53): the resource owner has
access; otherwise the requesting user is loaded (404 when absent) and must
belong to the `"admin"` group (403 otherwise).  `none` means access granted. -/
def check_user_access (db : DB) (current_user_id resource_owner_id : Nat) : Option ApiError :=
  if current_user_id == resource_owner_id then
    none
  else
    match db.users.find? (fun u => u.id == current_user_id) with
    | none => some (.notFound "User not found")
    | some current_user =>
      if current_user.group_name != "admin" then some (.forbidden "Access forbidden")
      else none

/-- `fetch_existing_cart` (`carts.py` lines 19-24): the first cart of the
user, without creating one. -/
def fetch_existing_cart (user_id : Nat) (db : DB) : Option Cart :=
  db.carts.find? (fun c => c.user_id == user_id)

/-- `create_order` (`orders.py` lines 145-198).  Rejects a user who already
has a PENDING order (400), fetches the existing cart and rejects a missing or
empty one (400), loads the catalog movies still existing among the cart's
movie ids and rejects an empty result (400); otherwise, in one transaction,
inserts `Order{PENDING, total_amount = sum of those movies' prices}` and one
`OrderItem` per still-existing movie with `price_at_order` its current price,
deletes every cart item of the cart and the cart itself, and commits.
Returns the new state and the new order's id. -/
def create_order (current_user_id : Nat) (db : DB) : Except ApiError (DB × Nat) :=
  if !(db.orders.filter (fun o =>
        o.user_id == current_user_id && o.status == OrderStatus.PENDING)).isEmpty then
    .error (.badRequest "You have unpaid order")
  else
    match fetch_existing_cart current_user_id db with
    | none => .error (.badRequest "Your cart is empty")
    | some user_cart =>
      let cart_items := db.cart_items.filter (fun ci => ci.cart_id == user_cart.id)
      if cart_items.isEmpty then
        .error (.badRequest "Your cart is empty")
      else
        let movie_ids := cart_items.map (fun ci => ci.movie_id)
        let movies_in_cart := db.movies.filter (fun m => movie_ids.contains m.id)
        if movies_in_cart.isEmpty then
          .error (.badRequest "Movies in your cart are no longer available")
        else
          let total_amount := (movies_in_cart.map Movie.price).sum
          let order : Order :=
            { id := db.next_id
              user_id := current_user_id
              status := OrderStatus.PENDING
              total_amount := total_amount }
          let new_items :=
            (movies_in_cart.enum).map (fun e =>
              { id := db.next_id + 1 + e.1
                order_id := order.id
                movie_id := e.2.id
                price_at_order := e.2.price : OrderItem })
          let db2 : DB :=
            { db with
              orders := db.orders ++ [order]
              order_items := db.order_items ++ new_items
              cart_items := db.cart_items.filter (fun ci => !(ci.cart_id == user_cart.id))
              carts := db.carts.erase user_cart
              next_id := db.next_id + 1 + movies_in_cart.length }
          .ok (db2, order.id)

/-- The response of `get_order` (`schemas/orders.py`, without timestamp). -/
structure OrderWithMoviesResponse where
  id : Nat
  user_id : Nat
  status : OrderStatus
  total_amount : Int
  movies : List String
deriving DecidableEq, Repr

/-- The `item.movie.name` access used when building order responses. -/
def movie_name (db : DB) (movie_id : Nat) : String :=
  match db.movies.find? (fun m => m.id == movie_id) with
  | some m => m.name
  | none => ""

/-- `get_order` (`orders.py` lines 201-235): loads the order (404 when
absent), checks access, and rejects a CANCELED order with a 400 before
building the response. -/
def get_order (order_id : Nat) (current_user_id : Nat) (db : DB) :
    Except ApiError OrderWithMoviesResponse :=
  match db.orders.find? (fun o => o.id == order_id) with
  | none => .error (.notFound "Order not found")
  | some order =>
    match check_user_access db current_user_id order.user_id with
    | some e => .error e
    | none =>
      if order.status == OrderStatus.CANCELED then
        .error (.badRequest "Order is canceled and cannot be accessed")
      else
        .ok { id := order.id
              user_id := order.user_id
              status := order.status
              total_amount := order.total_amount
              movies :=
                (db.order_items.filter (fun i => i.order_id == order.id)).map
                  (fun i => movie_name db i.movie_id) }

/-- `OrderStatus(status)` string conversion used by `update_order_status`
(the enum values in `orders.py` are "pending", "paid", "canceled"). -/
def parse_order_status (s : String) : Option OrderStatus :=
  if s == "pending" then some OrderStatus.PENDING
  else if s == "paid" then some OrderStatus.PAID
  else if s == "canceled" then some OrderStatus.CANCELED
  else none

/-- `update_order_status` (`orders.py` lines 238-298): parses the requested
status (400 on an unknown string), loads the order (404), checks access,
rejects PAID and CANCELED orders (400), then sets the requested status and
commits. -/
def update_order_status (order_id : Nat) (status : String) (current_user_id : Nat)
    (db : DB) : Except ApiError (DB × Order) :=
  match parse_order_status status with
  | none => .error (.badRequest "Invalid status")
  | some requested_status_enum =>
    match db.orders.find? (fun o => o.id == order_id) with
    | none => .error (.notFound "Order not found")
    | some order =>
      match check_user_access db current_user_id order.user_id with
      | some e => .error e
      | none =>
        if order.status == OrderStatus.PAID || order.status == OrderStatus.CANCELED then
          .error (.badRequest "Cannot update a paid or canceled order")
        else
          .ok ({ db with
                 orders :=
                   updateFirst (fun o => o.id == order_id)
                     (fun o => { o with status := requested_status_enum })
                     db.orders },
               { order with status := requested_status_enum })

/-- `cancel_order` (`orders.py` lines 338-382): loads the order (404), checks
access, rejects any status other than PENDING (400), then sets CANCELED and
commits. -/
def cancel_order (order_id : Nat) (current_user_id : Nat) (db : DB) :
    Except ApiError (DB × Order) :=
  match db.orders.find? (fun o => o.id == order_id) with
  | none => .error (.notFound "Order not found")
  | some order =>
    match check_user_access db current_user_id order.user_id with
    | some e => .error e
    | none =>
      if order.status != OrderStatus.PENDING then
        .error (.badRequest "Only pending orders can be canceled")
      else
        .ok ({ db with
               orders :=
                 updateFirst (fun o => o.id == order_id)
                   (fun o => { o with status := OrderStatus.CANCELED })
                   db.orders },
             { order with status := OrderStatus.CANCELED })

/-- `delete_order` (`orders.py` lines 301-335): loads the order (404), checks
access, rejects any status other than PENDING (400), then deletes the order's
items and the order row.  The `payments` relationship carries
`cascade="all, delete-orphan"` and the `payments.order_id` /
`payment_items.payment_id` foreign keys carry `ondelete="CASCADE"`, so the
order's payments and their payment items are removed with it. -/
def delete_order (order_id : Nat) (current_user_id : Nat) (db : DB) :
    Except ApiError DB :=
  match db.orders.find? (fun o => o.id == order_id) with
  | none => .error (.notFound "Order not found")
  | some order =>
    match check_user_access db current_user_id order.user_id with
    | some e => .error e
    | none =>
      if order.status != OrderStatus.PENDING then
        .error (.badRequest "Cannot delete a paid or canceled order")
      else
        let removed_payment_ids :=
          (db.payments.filter (fun p => p.order_id == order.id)).map Payment.id
        .ok { db with
              orders := db.orders.erase order
              order_items := db.order_items.filter (fun i => !(i.order_id == order.id))
              payments := db.payments.filter (fun p => !(p.order_id == order.id))
              payment_items :=
                db.payment_items.filter
                  (fun x => !(removed_payment_ids.contains x.payment_id)) }

/-- The status a recognized webhook event type instructs the reconciler to
apply (`none` for unrecognized types, which are acknowledged and ignored). -/
def instructed_status (t : String) : Option PaymentStatus :=
  if t == "payment_intent.succeeded" then some PaymentStatus.successful
  else if t == "payment_intent.canceled" then some PaymentStatus.canceled
  else if t == "charge.refunded" then some PaymentStatus.refunded
  else none

/-- The gateway object id the webhook handler uses for the lookup:
`data["payment_intent"]` for `charge.refunded`, `data["id"]` otherwise. -/
def event_lookup_id (e : StripeEvent) : String :=
  if e.type == "charge.refunded" then e.data.payment_intent else e.data.id

/-- The spec invariant: every order's `total_amount` is the sum of
`price_at_order` over its order items. -/
def orders_consistent (db : DB) : Prop :=
  ∀ o ∈ db.orders, o.total_amount =
    ((db.order_items.filter (fun i => i.order_id == o.id)).map OrderItem.price_at_order).sum

/-- Well-formedness the relational schema provides: every order id, and every
order item's foreign key `order_id`, is below the autoincrement counter
(primary keys are generated by the counter and foreign keys reference
existing orders), and order primary keys are pairwise distinct. -/
def DB.wf (db : DB) : Prop :=
  (∀ o ∈ db.orders, o.id < db.next_id) ∧
  (∀ i ∈ db.order_items, i.order_id < db.next_id) ∧
  (db.orders.map Order.id).Nodup

/-- The `(id, external_payment_id)` projection of the payments table. -/
def payments_extid (db : DB) : List (Nat × Option String) :=
  db.payments.map (fun p => (p.id, p.external_payment_id))

/-- The state after a `create_payment` call (unchanged when the call
errored). -/
def applyCreatePayment (pd : PaymentCreate) (uid : Nat) (db : DB) : DB :=
  match (create_payment pd uid db).2 with
  | Except.ok x => x.1
  | Except.error _ => db

/-- The state after a `create_order` call (unchanged when the call
errored). -/
def applyCreateOrder (uid : Nat) (db : DB) : DB :=
  match create_order uid db with
  | Except.ok x => x.1
  | Except.error _ => db

/-- A user row in the plain (non-admin) group. -/
def plainUser (i : Nat) (mail : String) : UserRow :=
  { id := i, email := mail, group_name := "user" }

/-- An empty database with a given autoincrement counter. -/
def emptyDB (n : Nat) : DB :=
  { users := [], movies := [], carts := [], cart_items := [], orders := [],
    order_items := [], payments := [], payment_items := [], next_id := n }

/-- Fixture for the webhook claims: one payment in the terminal `canceled`
state, correlated to gateway intent `"pi_1"`. -/
def c1Payment : Payment :=
  { id := 10, user_id := 1, order_id := 20, status := PaymentStatus.canceled,
    amount := 999, external_payment_id := some "pi_1", payment_method := some "card" }

def c1DB : DB :=
  { emptyDB 21 with
    users := [plainUser 1 "u1@example.com"]
    orders := [{ id := 20, user_id := 1, status := OrderStatus.PAID, total_amount := 999 }]
    payments := [c1Payment] }

def c1Event : StripeEvent :=
  { type := "payment_intent.succeeded", data := { id := "pi_1", payment_intent := "pi_1" } }

/-- Fixture for the missing-payment webhook claim: no payment matches
`"pi_unknown"`. -/
def c2DB : DB :=
  { emptyDB 21 with
    users := [plainUser 1 "u1@example.com"]
    payments := [c1Payment] }

def c2Event : StripeEvent :=
  { type := "payment_intent.succeeded",
    data := { id := "pi_unknown", payment_intent := "pi_unknown" } }

/-- Fixture for the payment access-control claim: order 5 belongs to user 1;
user 2 exists and is not an administrator. -/
def c3DB : DB :=
  { emptyDB 7 with
    users := [plainUser 1 "owner@example.com", plainUser 2 "other@example.com"]
    orders := [{ id := 5, user_id := 1, status := OrderStatus.PENDING, total_amount := 1000 }]
    order_items := [{ id := 6, order_id := 5, movie_id := 3, price_at_order := 1000 }] }

def c3Req : PaymentCreate :=
  { order_id := 5, amount := 1000, payment_method := some "card",
    external_payment_id := "pi_x" }

/-- The payment row `create_payment c3Req 2 c3DB` inserts. -/
def c3NewPayment : Payment :=
  { id := 7, user_id := 2, order_id := 5, status := PaymentStatus.pending,
    amount := 1000, external_payment_id := some "pi_x", payment_method := some "card" }

def c3DB2 : DB :=
  { c3DB with
    payments := [c3NewPayment]
    payment_items := [{ id := 8, payment_id := 7, order_item_id := 6, price_at_payment := 1000 }]
    next_id := 9 }

def c3Resp : PaymentResponse :=
  { id := 7, user_id := 2, order_id := 5, status := PaymentStatus.pending,
    amount := 1000, external_payment_id := some "pi_x", payment_method := some "card",
    client_secret := some "mock_client_secret_123",
    payment_items := [{ id := 8, payment_id := 7, order_item_id := 6, price_at_payment := 1000 }] }

/-- Fixture for the gateway claim: the order's owner creates a payment. -/
def c4DB : DB :=
  { emptyDB 7 with
    users := [plainUser 1 "owner@example.com"]
    orders := [{ id := 5, user_id := 1, status := OrderStatus.PENDING, total_amount := 1000 }]
    order_items := [{ id := 6, order_id := 5, movie_id := 3, price_at_order := 1000 }] }

def c4Req : PaymentCreate :=
  { order_id := 5, amount := 1000, payment_method := some "card",
    external_payment_id := "pi_y" }

/-- Fixture for the order-total claim: user 1 has a cart with one existing
movie. -/
def c5DB : DB :=
  { emptyDB 7 with
    users := [plainUser 1 "u1@example.com"]
    movies := [{ id := 3, name := "Heat", price := 999 }]
    carts := [{ id := 4, user_id := 1 }]
    cart_items := [{ id := 5, cart_id := 4, movie_id := 3 }] }

/-- Fixture for the refund-guard claim: a pending payment owned by user 1. -/
def c6Payment : Payment :=
  { id := 10, user_id := 1, order_id := 20, status := PaymentStatus.pending,
    amount := 999, external_payment_id := some "pi_6", payment_method := some "card" }

def c6DB : DB :=
  { emptyDB 21 with
    users := [plainUser 1 "u1@example.com"]
    orders := [{ id := 20, user_id := 1, status := OrderStatus.PENDING, total_amount := 999 }]
    payments := [c6Payment] }

/-- Fixture for the external-id uniqueness claim: one pending order of user 1
with one item; `create_payment` is run twice with the same
`external_payment_id`. -/
def c7DB : DB :=
  { emptyDB 3 with
    users := [plainUser 1 "u1@example.com"]
    orders := [{ id := 1, user_id := 1, status := OrderStatus.PENDING, total_amount := 500 }]
    order_items := [{ id := 2, order_id := 1, movie_id := 9, price_at_order := 500 }] }

def c7Req : PaymentCreate :=
  { order_id := 1, amount := 500, payment_method := none,
    external_payment_id := "pi_dup" }

/-- The state after the first `create_payment c7Req 1 c7DB`. -/
def c7DB1 : DB :=
  { c7DB with
    payments := [{ id := 3, user_id := 1, order_id := 1, status := PaymentStatus.pending,
                   amount := 500, external_payment_id := some "pi_dup", payment_method := none }]
    payment_items := [{ id := 4, payment_id := 3, order_item_id := 2, price_at_payment := 500 }]
    next_id := 5 }

def c7Resp1 : PaymentResponse :=
  { id := 3, user_id := 1, order_id := 1, status := PaymentStatus.pending,
    amount := 500, external_payment_id := some "pi_dup", payment_method := none,
    client_secret := some "mock_client_secret_123",
    payment_items := [{ id := 4, payment_id := 3, order_item_id := 2, price_at_payment := 500 }] }

/-- Fixture for the pending-order conflict claim: user 1 already has a
PENDING order, and still has a cart that must survive the rejected call. -/
def c8Order : Order :=
  { id := 5, user_id := 1, status := OrderStatus.PENDING, total_amount := 700 }

def c8DB : DB :=
  { emptyDB 9 with
    users := [plainUser 1 "u1@example.com"]
    movies := [{ id := 3, name := "Ran", price := 700 }]
    carts := [{ id := 7, user_id := 1 }]
    cart_items := [{ id := 8, cart_id := 7, movie_id := 3 }]
    orders := [c8Order] }

/-- Fixture for the partially-available-cart claim: user 1's cart holds movie
10 (still in the catalog, price 999) and movie 11 (no longer in the
catalog). -/
def c9Cart : Cart := { id := 2, user_id := 1 }

def c9DB : DB :=
  { emptyDB 7 with
    users := [plainUser 1 "u1@example.com"]
    movies := [{ id := 10, name := "Alien", price := 999 }]
    carts := [c9Cart]
    cart_items := [{ id := 3, cart_id := 2, movie_id := 10 },
                   { id := 4, cart_id := 2, movie_id := 11 }] }

/-- Fixture for the canceled-order read claim: order 5 of user 1 is CANCELED;
user 2 is an administrator. -/
def c10Order : Order :=
  { id := 5, user_id := 1, status := OrderStatus.CANCELED, total_amount := 1000 }

def c10DB : DB :=
  { emptyDB 9 with
    users := [plainUser 1 "owner@example.com",
              { id := 2, email := "root@example.com", group_name := "admin" }]
    orders := [c10Order] }

/-- The state and response produced by `create_payment c4Req 1 c4DB`. -/
def c4DB2 : DB :=
  { c4DB with
    payments := [{ id := 7, user_id := 1, order_id := 5, status := PaymentStatus.pending,
                   amount := 1000, external_payment_id := some "pi_y",
                   payment_method := some "card" }]
    payment_items := [{ id := 8, payment_id := 7, order_item_id := 6, price_at_payment := 1000 }]
    next_id := 9 }

def c4Resp : PaymentResponse :=
  { id := 7, user_id := 1, order_id := 5, status := PaymentStatus.pending,
    amount := 1000, external_payment_id := some "pi_y", payment_method := some "card",
    client_secret := some "mock_client_secret_123",
    payment_items := [{ id := 8, payment_id := 7, order_item_id := 6, price_at_payment := 1000 }] }

/-- The cart items `create_order` loads for a cart (the `user_cart.cart_items`
relationship). -/
def cart_items_of (db : DB) (cart : Cart) : List CartItem :=
  db.cart_items.filter (fun ci => ci.cart_id == cart.id)

/-- The `movies_in_cart` list `create_order` resolves: the catalog movies
whose id occurs among the cart's movie ids. -/
def movies_in_cart_of (db : DB) (cart : Cart) : List Movie :=
  db.movies.filter (fun m =>
    ((cart_items_of db cart).map (fun ci => ci.movie_id)).contains m.id)

/-- The order row `create_order` inserts. -/
def new_order_of (db : DB) (u : Nat) (cart : Cart) : Order :=
  { id := db.next_id
    user_id := u
    status := OrderStatus.PENDING
    total_amount := ((movies_in_cart_of db cart).map Movie.price).sum }

/-- The order item rows `create_order` inserts. -/
def new_items_of (db : DB) (cart : Cart) : List OrderItem :=
  ((movies_in_cart_of db cart).enum).map (fun e =>
    { id := db.next_id + 1 + e.1
      order_id := db.next_id
      movie_id := e.2.id
      price_at_order := e.2.price : OrderItem })

/-- The state a successful `create_order` commits. -/
def created_db_of (db : DB) (u : Nat) (cart : Cart) : DB :=
  { db with
    orders := db.orders ++ [new_order_of db u cart]
    order_items := db.order_items ++ new_items_of db cart
    cart_items := db.cart_items.filter (fun ci => !(ci.cart_id == cart.id))
    carts := db.carts.erase cart
    next_id := db.next_id + 1 + (movies_in_cart_of db cart).length }

/-- Mapping a projection unchanged by `f` over `updateFirst` is mapping it
over the original list. -/
theorem updateFirst_map {α β : Type} (p : α → Bool) (f : α → α) (g : α → β)
    (hfg : ∀ x, g (f x) = g x) (l : List α) :
    (updateFirst p f l).map g = l.map g := by
  induction l with
  | nil => rfl
  | cons a as ih => by_cases h : p a <;> simp [updateFirst, h, hfg, ih]

/-- Every element of `updateFirst p f l` is an element of `l` or the image
under `f` of an element of `l`. -/
theorem mem_updateFirst {α : Type} {p : α → Bool} {f : α → α} {l : List α} {x : α}
    (hx : x ∈ updateFirst p f l) : x ∈ l ∨ ∃ y, y ∈ l ∧ x = f y := by
  induction l with
  | nil => simp [updateFirst] at hx
  | cons a as ih =>
    by_cases h : p a
    · simp only [updateFirst, if_pos h, List.mem_cons] at hx
      rcases hx with h1 | h1
      · exact Or.inr ⟨a, List.mem_cons_self a as, h1⟩
      · exact Or.inl (List.mem_cons_of_mem _ h1)
    · simp only [updateFirst, if_neg h, List.mem_cons] at hx
      rcases hx with h1 | h1
      · exact Or.inl (h1 ▸ List.mem_cons_self a as)
      · rcases ih h1 with h2 | ⟨y, hy, he⟩
        · exact Or.inl (List.mem_cons_of_mem _ h2)
        · exact Or.inr ⟨y, List.mem_cons_of_mem _ hy, he⟩

/-- When `f` keeps `p` satisfied, `updateFirst` moves the first `p`-match of
`find?` through `f`. -/
theorem find?_updateFirst {α : Type} (p : α → Bool) (f : α → α)
    (hf : ∀ x, p x = true → p (f x) = true) {l : List α} {a : α}
    (h : l.find? p = some a) :
    (updateFirst p f l).find? p = some (f a) := by
  induction l with
  | nil => simp [List.find?] at h
  | cons b bs ih =>
    by_cases hb : p b
    · rw [List.find?_cons_of_pos _ hb] at h
      injection h with h
      subst h
      simp [updateFirst, hb, List.find?_cons_of_pos _ (hf b hb)]
    · rw [List.find?_cons_of_neg _ hb] at h
      simp [updateFirst, hb, List.find?_cons_of_neg, ih h]

/-- The webhook dispatch, written through `instructed_status` and
`event_lookup_id`. -/
theorem stripe_webhook_eq_dispatch (db : DB) (e : StripeEvent) :
    stripe_webhook db e =
      match instructed_status e.type with
      | some s => (update_payment_status db (event_lookup_id e) s).map (fun d => (d, "success"))
      | none => Except.ok (db, "success") := by
  unfold stripe_webhook instructed_status event_lookup_id
  by_cases h1 : e.type == "payment_intent.succeeded"
  · have e1 : e.type = "payment_intent.succeeded" := by simpa using h1
    simp [e1]
  · by_cases h2 : e.type == "payment_intent.canceled"
    · have e2 : e.type = "payment_intent.canceled" := by simpa using h2
      simp [e2]
    · by_cases h3 : e.type == "charge.refunded"
      · have e3 : e.type = "charge.refunded" := by simpa using h3
        simp [e3]
      · simp [h1, h2, h3]

/-- C1: the claim fails on the code.  `update_payment_status` contains no
check of the current status: a `payment_intent.succeeded` event delivered for
a payment whose persisted status is the terminal `canceled` is applied, and
the payment ends `successful` instead of staying `canceled`. -/
theorem c1_webhook_overwrites_terminal_state :
    c1Payment.status = PaymentStatus.canceled ∧
    stripe_webhook c1DB c1Event =
      Except.ok ({ c1DB with
                   payments := [{ c1Payment with status := PaymentStatus.successful }] },
                 "success") :=
  ⟨rfl, rfl⟩

/-- C1 (amended): for every verified recognized webhook event whose gateway
object id matches a payment, the reconciler sets that payment's status to the
event's instructed status unconditionally — there is no validity check
against the current persisted state, and transitions out of the terminal
states `canceled` and `refunded` are applied like any other. -/
theorem c1_webhook_applies_status_unconditionally
    (db : DB) (e : StripeEvent) (s : PaymentStatus) (p : Payment)
    (hs : instructed_status e.type = some s)
    (hp : db.payments.find?
        (fun q => q.external_payment_id == some (event_lookup_id e)) = some p) :
    ∃ db2, stripe_webhook db e = Except.ok (db2, "success") ∧
      db2.payments.find?
          (fun q => q.external_payment_id == some (event_lookup_id e)) =
        some { p with status := s } := by
  rw [stripe_webhook_eq_dispatch, hs]
  unfold update_payment_status
  rw [hp]
  refine ⟨_, rfl, ?_⟩
  exact find?_updateFirst _ (fun q => { q with status := s }) (fun x hx => hx) hp

/-- C1 amended, witnessed on the fixture: the canceled payment `c1Payment`
is driven to `successful` by a `payment_intent.succeeded` event. -/
theorem c1_webhook_applies_status_unconditionally_witness :
    instructed_status c1Event.type = some PaymentStatus.successful ∧
    c1DB.payments.find?
        (fun q => q.external_payment_id == some (event_lookup_id c1Event)) = some c1Payment ∧
    ∃ db2, stripe_webhook c1DB c1Event = Except.ok (db2, "success") ∧
      db2.payments.find?
          (fun q => q.external_payment_id == some (event_lookup_id c1Event)) =
        some { c1Payment with status := PaymentStatus.successful } :=
  ⟨rfl, rfl,
    c1_webhook_applies_status_unconditionally c1DB c1Event PaymentStatus.successful c1Payment
      rfl rfl⟩

/-- C2: on the failing input — a verified `payment_intent.succeeded` event
whose gateway object id `"pi_unknown"` matches no payment — the handler does
not return the success acknowledgement: `payment.status = new_status` is
executed on the `None` returned by the lookup, raising `AttributeError`
(surfaced as a 500 response); no payment state is changed. -/
theorem c2_webhook_errors_on_unknown_payment :
    stripe_webhook c2DB c2Event =
      Except.error (ApiError.attributeError "NoneType object has no attribute status") :=
  rfl

/-- C3: the claim fails on the code.  User 2 is neither the owner of order 5
(user 1 is) nor an administrator, yet `create_payment` succeeds and inserts a
payment row: the handler contains no ownership or admin check at all. -/
theorem c3_create_payment_without_access_check :
    create_payment c3Req 2 c3DB = ([], Except.ok (c3DB2, c3Resp)) ∧
    c3DB2.payments = [c3NewPayment] ∧
    (c3DB.users.find? (fun u => u.id == 2)).map UserRow.group_name = some "user" ∧
    (c3DB.orders.find? (fun o => o.id == c3Req.order_id)).map Order.user_id = some 1 :=
  ⟨rfl, rfl, rfl, rfl⟩

/-- C3 (amended): `create_payment` performs no access check: for every
existing order with at least one order item, any authenticated requester —
owner or not, administrator or not — succeeds, and the inserted payment row
carries the requester as `user_id` and the order's `total_amount`. -/
theorem create_payment_no_access_check
    (db : DB) (pd : PaymentCreate) (uid : Nat) (order : Order)
    (horder : db.orders.find? (fun o => o.id == pd.order_id) = some order)
    (hitems : (db.order_items.filter (fun i => i.order_id == order.id)).isEmpty = false) :
    ∃ db2 resp, create_payment pd uid db = ([], Except.ok (db2, resp)) ∧
      db2.payments = db.payments ++
        [{ id := db.next_id, user_id := uid, order_id := order.id,
           status := PaymentStatus.pending, amount := order.total_amount,
           external_payment_id := some pd.external_payment_id,
           payment_method := pd.payment_method }] := by
  unfold create_payment
  rw [horder]
  simp only [hitems, Bool.false_eq_true, if_false]
  exact ⟨_, _, rfl, rfl⟩

/-- C3 amended, witnessed on the fixture: non-owner non-admin user 2 creates
a payment for user 1's order 5. -/
theorem create_payment_no_access_check_witness :
    c3DB.orders.find? (fun o => o.id == c3Req.order_id) =
      some { id := 5, user_id := 1, status := OrderStatus.PENDING, total_amount := 1000 } ∧
    (c3DB.order_items.filter (fun i => i.order_id == 5)).isEmpty = false ∧
    ∃ db2 resp, create_payment c3Req 2 c3DB = ([], Except.ok (db2, resp)) ∧
      db2.payments = c3DB.payments ++
        [{ id := c3DB.next_id, user_id := 2, order_id := 5,
           status := PaymentStatus.pending, amount := 1000,
           external_payment_id := some c3Req.external_payment_id,
           payment_method := c3Req.payment_method }] :=
  ⟨rfl, rfl,
    create_payment_no_access_check c3DB c3Req 2
      { id := 5, user_id := 1, status := OrderStatus.PENDING, total_amount := 1000 } rfl rfl⟩

/-- C4: the claim fails on the code.  A successful `create_payment` call on
the fixture performs no gateway call (the recorded call list is empty) and
returns the hard-coded token `"mock_client_secret_123"` instead of a
gateway-produced one. -/
theorem c4_create_payment_never_opens_intent :
    create_payment c4Req 1 c4DB = ([], Except.ok (c4DB2, c4Resp)) ∧
    c4Resp.client_secret = some "mock_client_secret_123" :=
  ⟨rfl, rfl⟩

/-- C4 (amended): `create_payment` never invokes the external gateway — its
recorded gateway-call list is empty for every input, while an actual
invocation of `create_stripe_payment_intent` always records one
`PaymentIntent.create` call — and every successful response carries the
constant `client_secret = "mock_client_secret_123"`; consequently no
gateway-failure (`GatewayError`) path exists inside `create_payment`. -/
theorem create_payment_never_calls_gateway (db : DB) (pd : PaymentCreate) (uid : Nat) :
    (create_payment pd uid db).1 = [] ∧
    (∀ db2 resp, (create_payment pd uid db).2 = Except.ok (db2, resp) →
        resp.client_secret = some "mock_client_secret_123") ∧
    (∀ amount outcome, (create_stripe_payment_intent amount outcome).1 =
        [StripeCall.paymentIntentCreate amount STRIPE_CURRENCY]) := by
  refine ⟨rfl, ?_, fun amount outcome => rfl⟩
  intro db2 resp h
  unfold create_payment at h
  rcases hf : db.orders.find? (fun o => o.id == pd.order_id) with _ | order
  · rw [hf] at h
    exact absurd h (by simp)
  · rw [hf] at h
    by_cases hi : (db.order_items.filter (fun i => i.order_id == order.id)).isEmpty
    · simp [hi] at h
    · simp only [Bool.not_eq_true] at hi
      simp only [hi, Bool.false_eq_true, if_false, Except.ok.injEq, Prod.mk.injEq] at h
      rcases h with ⟨-, hresp⟩
      rw [← hresp]

/-- C4 amended, witnessed on the fixture. -/
theorem create_payment_never_calls_gateway_witness :
    (create_payment c4Req 1 c4DB).1 = [] ∧
    ((create_payment c4Req 1 c4DB).2 = Except.ok (c4DB2, c4Resp) →
        c4Resp.client_secret = some "mock_client_secret_123") :=
  ⟨(create_payment_never_calls_gateway c4DB c4Req 1).1,
    fun h => (create_payment_never_calls_gateway c4DB c4Req 1).2.1 c4DB2 c4Resp h⟩

/-- C6: for every refund request on a payment owned by the requester whose
status is not `successful`, `refund_payment` fails with the 400 validation
error, makes no gateway call (the recorded call list is empty, whatever the
gateway would have answered), and — the error path committing nothing — the
payment's state is unchanged; in particular no such request ever returns a
success, so a refund succeeds only from `successful`. -/
theorem c6_refund_only_from_successful
    (db : DB) (pid uid : Nat) (g : StripeRefundOutcome) (p : Payment)
    (hfind : db.payments.find? (fun q => q.id == pid && q.user_id == uid) = some p)
    (hst : p.status ≠ PaymentStatus.successful) :
    refund_payment pid uid g db =
      ([], Except.error (ApiError.badRequest "Only successful payments can be refunded")) ∧
    ∀ db2 pr, (refund_payment pid uid g db).2 ≠ Except.ok (db2, pr) := by
  have h1 : refund_payment pid uid g db =
      ([], Except.error (ApiError.badRequest "Only successful payments can be refunded")) := by
    unfold refund_payment
    rw [hfind]
    have hb : (p.status != PaymentStatus.successful) = true := by
      simpa [bne_iff_ne] using hst
    simp [hb]
  refine ⟨h1, fun db2 pr h => ?_⟩
  rw [h1] at h
  exact absurd h (by simp)

/-- C6, witnessed on the fixture: refunding the pending payment `c6Payment`
is rejected before any gateway interaction. -/
theorem c6_refund_only_from_successful_witness :
    c6DB.payments.find? (fun q => q.id == 10 && q.user_id == 1) = some c6Payment ∧
    c6Payment.status ≠ PaymentStatus.successful ∧
    refund_payment 10 1 (StripeRefundOutcome.refund "succeeded") c6DB =
      ([], Except.error (ApiError.badRequest "Only successful payments can be refunded")) :=
  ⟨rfl, by decide,
    (c6_refund_only_from_successful c6DB 10 1 (StripeRefundOutcome.refund "succeeded")
        c6Payment rfl (by decide)).1⟩

/-- C8: when the user already owns a PENDING order, `create_order` fails with
the 400 conflict error as its very first check; the error path commits
nothing, so no order row is created and no cart item is deleted. -/
theorem c8_conflict_on_existing_pending_order
    (db : DB) (u : Nat) (o : Order) (ho : o ∈ db.orders)
    (hu : o.user_id = u) (hst : o.status = OrderStatus.PENDING) :
    create_order u db = Except.error (ApiError.badRequest "You have unpaid order") := by
  have hmem : o ∈ db.orders.filter
      (fun x => x.user_id == u && x.status == OrderStatus.PENDING) := by
    refine List.mem_filter.2 ⟨ho, ?_⟩
    simp [hu, hst]
  have hne : (db.orders.filter
      (fun x => x.user_id == u && x.status == OrderStatus.PENDING)).isEmpty = false := by
    have h0 : db.orders.filter
        (fun x => x.user_id == u && x.status == OrderStatus.PENDING) ≠ [] :=
      List.ne_nil_of_mem hmem
    simpa [List.isEmpty_iff] using h0
  unfold create_order
  simp [hne]

/-- C8, witnessed on the fixture: user 1 holds the PENDING order `c8Order`
and a second `create_order` is rejected. -/
theorem c8_conflict_on_existing_pending_order_witness :
    c8Order ∈ c8DB.orders ∧ c8Order.user_id = 1 ∧ c8Order.status = OrderStatus.PENDING ∧
    create_order 1 c8DB = Except.error (ApiError.badRequest "You have unpaid order") :=
  ⟨by decide, rfl, rfl,
    c8_conflict_on_existing_pending_order c8DB 1 c8Order (by decide) rfl rfl⟩

/-- C10: `get_order` on an existing CANCELED order never returns the order —
every outcome is an error — and when the requester passes the access check
(the owner, or an administrator), the error is specifically the 400
"Order is canceled and cannot be accessed". -/
theorem c10_canceled_order_never_returned
    (db : DB) (oid uid : Nat) (o : Order)
    (hfind : db.orders.find? (fun x => x.id == oid) = some o)
    (hc : o.status = OrderStatus.CANCELED) :
    (∀ resp, get_order oid uid db ≠ Except.ok resp) ∧
    (check_user_access db uid o.user_id = none →
      get_order oid uid db =
        Except.error (ApiError.badRequest "Order is canceled and cannot be accessed")) := by
  unfold get_order
  simp only [hfind]
  constructor
  · intro resp h
    rcases hca : check_user_access db uid o.user_id with _ | e
    · simp only [hca, hc] at h
      simp at h
    · simp only [hca] at h
      exact absurd h (by simp)
  · intro hnone
    simp only [hnone, hc]
    simp

/-- C10, witnessed on the fixture: the owner (user 1) reads their canceled
order 5 and gets the 400 error. -/
theorem c10_canceled_order_never_returned_witness :
    c10DB.orders.find? (fun x => x.id == 5) = some c10Order ∧
    c10Order.status = OrderStatus.CANCELED ∧
    check_user_access c10DB 1 c10Order.user_id = none ∧
    get_order 5 1 c10DB =
      Except.error (ApiError.badRequest "Order is canceled and cannot be accessed") :=
  ⟨rfl, rfl, rfl, (c10_canceled_order_never_returned c10DB 5 1 c10Order rfl rfl).2 rfl⟩

/-- Forward evaluation of `create_order` on the success path. -/
theorem create_order_eq_ok (u : Nat) (db : DB) (cart : Cart)
    (hnop : (db.orders.filter
        (fun o => o.user_id == u && o.status == OrderStatus.PENDING)).isEmpty = true)
    (hcart : fetch_existing_cart u db = some cart)
    (hitems : (cart_items_of db cart).isEmpty = false)
    (hmovies : (movies_in_cart_of db cart).isEmpty = false) :
    create_order u db = Except.ok (created_db_of db u cart, db.next_id) := by
  simp only [cart_items_of] at hitems
  simp only [movies_in_cart_of, cart_items_of] at hmovies
  unfold create_order
  rw [hnop, hcart]
  simp only [Bool.not_true, Bool.false_eq_true, if_false, hitems, hmovies]
  rfl

/-- Inversion of a successful `create_order`: the guards passed, the returned
id is the counter value, and the committed state is `created_db_of`. -/
theorem create_order_ok_inv {u : Nat} {db db2 : DB} {oid : Nat}
    (h : create_order u db = Except.ok (db2, oid)) :
    ∃ cart, fetch_existing_cart u db = some cart ∧
      (db.orders.filter
          (fun o => o.user_id == u && o.status == OrderStatus.PENDING)).isEmpty = true ∧
      (cart_items_of db cart).isEmpty = false ∧
      (movies_in_cart_of db cart).isEmpty = false ∧
      oid = db.next_id ∧ db2 = created_db_of db u cart := by
  unfold create_order at h
  cases h1 : (db.orders.filter
      (fun o => o.user_id == u && o.status == OrderStatus.PENDING)).isEmpty with
  | false =>
    rw [h1] at h
    simp at h
  | true =>
    rw [h1] at h
    simp only [Bool.not_true, Bool.false_eq_true, if_false] at h
    cases hcart : fetch_existing_cart u db with
    | none =>
      rw [hcart] at h
      simp at h
    | some cart =>
      rw [hcart] at h
      cases h2 : (cart_items_of db cart).isEmpty with
      | true =>
        simp only [cart_items_of] at h2
        simp only [h2] at h
        simp at h
      | false =>
        have h2u := h2
        simp only [cart_items_of] at h2u
        simp only [h2u, Bool.false_eq_true, if_false] at h
        cases h3 : (movies_in_cart_of db cart).isEmpty with
        | true =>
          have h3u := h3
          simp only [movies_in_cart_of, cart_items_of] at h3u
          simp only [h3u] at h
          simp at h
        | false =>
          have h3u := h3
          simp only [movies_in_cart_of, cart_items_of] at h3u
          simp only [h3u, Bool.false_eq_true, if_false, Except.ok.injEq,
            Prod.mk.injEq] at h
          obtain ⟨h4, h5⟩ := h
          refine ⟨cart, rfl, rfl, h2, h3, h5.symm, ?_⟩
          rw [← h4]
          rfl

/-- Every order item inserted by `create_order` carries the new order's id. -/
theorem new_items_order_id (db : DB) (cart : Cart) :
    ∀ i ∈ new_items_of db cart, i.order_id = db.next_id := by
  intro i hi
  simp only [new_items_of, List.mem_map] at hi
  rcases hi with ⟨e, _, rfl⟩
  rfl

/-- The inserted order items snapshot exactly the resolved movies' ids. -/
theorem new_items_map_movie_id (db : DB) (cart : Cart) :
    (new_items_of db cart).map OrderItem.movie_id =
      (movies_in_cart_of db cart).map Movie.id := by
  unfold new_items_of
  rw [List.map_map]
  have h1 : (OrderItem.movie_id ∘ fun e : Nat × Movie =>
      ({ id := db.next_id + 1 + e.1, order_id := db.next_id, movie_id := e.2.id,
         price_at_order := e.2.price : OrderItem })) =
      (Movie.id ∘ Prod.snd) := rfl
  rw [h1, ← List.map_map, List.enum_map_snd]

/-- The inserted order items snapshot exactly the resolved movies' prices. -/
theorem new_items_map_price (db : DB) (cart : Cart) :
    (new_items_of db cart).map OrderItem.price_at_order =
      (movies_in_cart_of db cart).map Movie.price := by
  unfold new_items_of
  rw [List.map_map]
  have h1 : (OrderItem.price_at_order ∘ fun e : Nat × Movie =>
      ({ id := db.next_id + 1 + e.1, order_id := db.next_id, movie_id := e.2.id,
         price_at_order := e.2.price : OrderItem })) =
      (Movie.price ∘ Prod.snd) := rfl
  rw [h1, ← List.map_map, List.enum_map_snd]

/-- Inversion of a successful `update_order_status`: only the found order's
status field is rewritten. -/
theorem update_order_status_ok_inv {oid : Nat} {st : String} {uid : Nat} {db db2 : DB}
    {r : Order} (h : update_order_status oid st uid db = Except.ok (db2, r)) :
    ∃ s order, parse_order_status st = some s ∧
      db.orders.find? (fun o => o.id == oid) = some order ∧
      db2 = { db with
              orders := updateFirst (fun o => o.id == oid)
                  (fun o => { o with status := s }) db.orders } := by
  unfold update_order_status at h
  cases hp : parse_order_status st with
  | none =>
    simp only [hp] at h
    simp at h
  | some s =>
    simp only [hp] at h
    cases hf : db.orders.find? (fun o => o.id == oid) with
    | none =>
      simp only [hf] at h
      simp at h
    | some order =>
      simp only [hf] at h
      cases hca : check_user_access db uid order.user_id with
      | none =>
        simp only [hca] at h
        cases hterm : (order.status == OrderStatus.PAID || order.status == OrderStatus.CANCELED) with
        | true =>
          simp only [hterm, if_true] at h
          simp at h
        | false =>
          simp only [hterm, Bool.false_eq_true, if_false, Except.ok.injEq,
            Prod.mk.injEq] at h
          exact ⟨s, order, rfl, rfl, h.1.symm⟩
      | some e =>
        simp only [hca] at h
        simp at h

/-- Inversion of a successful `cancel_order`: only the found order's status
field is rewritten, to CANCELED. -/
theorem cancel_order_ok_inv {oid uid : Nat} {db db2 : DB} {r : Order}
    (h : cancel_order oid uid db = Except.ok (db2, r)) :
    ∃ order, db.orders.find? (fun o => o.id == oid) = some order ∧
      db2 = { db with
              orders := updateFirst (fun o => o.id == oid)
                  (fun o => { o with status := OrderStatus.CANCELED }) db.orders } := by
  unfold cancel_order at h
  cases hf : db.orders.find? (fun o => o.id == oid) with
  | none =>
    simp only [hf] at h
    simp at h
  | some order =>
    simp only [hf] at h
    cases hca : check_user_access db uid order.user_id with
    | none =>
      simp only [hca] at h
      cases hterm : (order.status != OrderStatus.PENDING) with
      | true =>
        simp only [hterm, if_true] at h
        simp at h
      | false =>
        simp only [hterm, Bool.false_eq_true, if_false, Except.ok.injEq,
          Prod.mk.injEq] at h
        exact ⟨order, rfl, h.1.symm⟩
    | some e =>
      simp only [hca] at h
      simp at h

/-- Inversion of a successful `delete_order`: the found order, its items, its
payments and their payment items are removed; nothing else changes. -/
theorem delete_order_ok_inv {oid uid : Nat} {db db2 : DB}
    (h : delete_order oid uid db = Except.ok db2) :
    ∃ order, db.orders.find? (fun o => o.id == oid) = some order ∧
      db2 = { db with
              orders := db.orders.erase order
              order_items := db.order_items.filter (fun i => !(i.order_id == order.id))
              payments := db.payments.filter (fun p => !(p.order_id == order.id))
              payment_items :=
                db.payment_items.filter
                  (fun x => !(((db.payments.filter
                      (fun p => p.order_id == order.id)).map Payment.id).contains
                    x.payment_id)) } := by
  unfold delete_order at h
  cases hf : db.orders.find? (fun o => o.id == oid) with
  | none =>
    simp only [hf] at h
    simp at h
  | some order =>
    simp only [hf] at h
    cases hca : check_user_access db uid order.user_id with
    | none =>
      simp only [hca] at h
      cases hterm : (order.status != OrderStatus.PENDING) with
      | true =>
        simp only [hterm, if_true] at h
        simp at h
      | false =>
        simp only [hterm, Bool.false_eq_true, if_false, Except.ok.injEq] at h
        exact ⟨order, rfl, h.symm⟩
    | some e =>
      simp only [hca] at h
      simp at h

/-- Inversion of a successful `create_payment`: the order was found, its item
list was nonempty, and the new state appends one payment and its payment
items. -/
theorem create_payment_ok_inv {pd : PaymentCreate} {uid : Nat} {db db2 : DB}
    {resp : PaymentResponse}
    (h : (create_payment pd uid db).2 = Except.ok (db2, resp)) :
    ∃ order, db.orders.find? (fun o => o.id == pd.order_id) = some order ∧
      db2 = { db with
              payments := db.payments ++
                [{ id := db.next_id, user_id := uid, order_id := order.id,
                   status := PaymentStatus.pending, amount := order.total_amount,
                   external_payment_id := some pd.external_payment_id,
                   payment_method := pd.payment_method }]
              payment_items := db.payment_items ++
                ((db.order_items.filter (fun i => i.order_id == order.id)).enum).map
                  (fun e =>
                    { id := db.next_id + 1 + e.1
                      payment_id := db.next_id
                      order_item_id := e.2.id
                      price_at_payment := e.2.price_at_order : PaymentItem })
              next_id := db.next_id + 1 +
                (db.order_items.filter (fun i => i.order_id == order.id)).length } := by
  unfold create_payment at h
  cases hf : db.orders.find? (fun o => o.id == pd.order_id) with
  | none =>
    simp only [hf] at h
    simp at h
  | some order =>
    simp only [hf] at h
    cases hi : (db.order_items.filter (fun i => i.order_id == order.id)).isEmpty with
    | true =>
      simp only [hi, if_true] at h
      simp at h
    | false =>
      simp only [hi, Bool.false_eq_true, if_false, Except.ok.injEq, Prod.mk.injEq] at h
      exact ⟨order, rfl, h.1.symm⟩

/-- Inversion of a successful `refund_payment`: the owned payment was found
`successful`, the gateway reported `"succeeded"`, and only that payment's
status field is rewritten, to `refunded`. -/
theorem refund_payment_ok_inv {pid uid : Nat} {g : StripeRefundOutcome} {db db2 : DB}
    {pr : Payment} (h : (refund_payment pid uid g db).2 = Except.ok (db2, pr)) :
    ∃ p, db.payments.find? (fun q => q.id == pid && q.user_id == uid) = some p ∧
      p.status = PaymentStatus.successful ∧ g = StripeRefundOutcome.refund "succeeded" ∧
      db2 = { db with
              payments :=
                updateFirst (fun q => q.id == pid && q.user_id == uid)
                  (fun q => { q with status := PaymentStatus.refunded }) db.payments } := by
  unfold refund_payment at h
  cases hf : db.payments.find? (fun q => q.id == pid && q.user_id == uid) with
  | none =>
    simp only [hf] at h
    simp at h
  | some p =>
    simp only [hf] at h
    cases hst : (p.status != PaymentStatus.successful) with
    | true =>
      simp only [hst, if_true] at h
      simp at h
    | false =>
      simp only [hst, Bool.false_eq_true, if_false] at h
      cases g with
      | raised msg =>
        simp at h
      | refund rs =>
        cases hr : (rs == "succeeded") with
        | false =>
          simp only [hr, Bool.false_eq_true, if_false] at h
          simp at h
        | true =>
          simp only [hr, if_true, Except.ok.injEq, Prod.mk.injEq] at h
          have hrs : rs = "succeeded" := by simpa using hr
          have hps : p.status = PaymentStatus.successful := by
            exact bne_eq_false_iff_eq.mp hst
          exact ⟨p, rfl, hps, by rw [hrs], h.1.symm⟩

/-- Inversion of a webhook acknowledgement: either the event type is
unrecognized and the state is unchanged, or the instructed status was applied
to the first payment matching the event's gateway object id. -/
theorem stripe_webhook_ok_inv {db db2 : DB} {ev : StripeEvent} {ack : String}
    (h : stripe_webhook db ev = Except.ok (db2, ack)) :
    (instructed_status ev.type = none ∧ db2 = db) ∨
    (∃ s p, instructed_status ev.type = some s ∧
      db.payments.find?
          (fun q => q.external_payment_id == some (event_lookup_id ev)) = some p ∧
      db2 = { db with
              payments :=
                updateFirst (fun q => q.external_payment_id == some (event_lookup_id ev))
                  (fun q => { q with status := s }) db.payments }) := by
  rw [stripe_webhook_eq_dispatch] at h
  cases hs : instructed_status ev.type with
  | none =>
    simp only [hs] at h
    simp only [Except.ok.injEq, Prod.mk.injEq] at h
    exact Or.inl ⟨rfl, h.1.symm⟩
  | some s =>
    simp only [hs] at h
    unfold update_payment_status at h
    cases hf : db.payments.find?
        (fun q => q.external_payment_id == some (event_lookup_id ev)) with
    | none =>
      simp only [hf] at h
      simp [Except.map] at h
    | some p =>
      simp only [hf] at h
      simp only [Except.map, Except.ok.injEq, Prod.mk.injEq] at h
      exact Or.inr ⟨s, p, rfl, rfl, h.1.symm⟩

/-- C7: the claim fails on the code.  Running `create_payment` twice with the
same client-supplied `external_payment_id = "pi_dup"` succeeds both times (no
uniqueness check exists, and the column has no unique constraint): the
reachable final state holds two distinct payment rows (ids 3 and 5) with the
same `external_payment_id`. -/
theorem c7_duplicate_external_payment_id :
    (create_payment c7Req 1 c7DB).2 = Except.ok (c7DB1, c7Resp1) ∧
    (applyCreatePayment c7Req 1 (applyCreatePayment c7Req 1 c7DB)).payments.map
        (fun p => (p.id, p.external_payment_id)) =
      [(3, some "pi_dup"), (5, some "pi_dup")] :=
  ⟨rfl, rfl⟩

/-- C7 (amended): once set at creation, a payment's `external_payment_id` is
never changed: the webhook reconciler and the refund processor rewrite only
the status field (the `(id, external_payment_id)` projection of the payments
table is unchanged), `create_payment` only appends a new row carrying the
client-supplied id, the order operations leave the projection unchanged, and
`delete_order` at most removes whole rows.  Uniqueness, however, is not
enforced anywhere. -/
theorem external_payment_id_set_once (db : DB) :
    (∀ ev db2 ack, stripe_webhook db ev = Except.ok (db2, ack) →
        payments_extid db2 = payments_extid db)
  ∧ (∀ pid uid g db2 pr, (refund_payment pid uid g db).2 = Except.ok (db2, pr) →
        payments_extid db2 = payments_extid db)
  ∧ (∀ pd uid db2 resp, (create_payment pd uid db).2 = Except.ok (db2, resp) →
        payments_extid db2 =
          payments_extid db ++ [(db.next_id, some pd.external_payment_id)])
  ∧ (∀ u db2 oid, create_order u db = Except.ok (db2, oid) →
        payments_extid db2 = payments_extid db)
  ∧ (∀ oid st uid db2 r, update_order_status oid st uid db = Except.ok (db2, r) →
        payments_extid db2 = payments_extid db)
  ∧ (∀ oid uid db2 r, cancel_order oid uid db = Except.ok (db2, r) →
        payments_extid db2 = payments_extid db)
  ∧ (∀ oid uid db2, delete_order oid uid db = Except.ok db2 →
        (payments_extid db2).Sublist (payments_extid db)) := by
  refine ⟨?_, ?_, ?_, ?_, ?_, ?_, ?_⟩
  · intro ev db2 ack h
    rcases stripe_webhook_ok_inv h with ⟨-, rfl⟩ | ⟨s, p, -, -, rfl⟩
    · rfl
    · unfold payments_extid
      exact updateFirst_map _ (fun q : Payment => { q with status := s })
        (fun p : Payment => (p.id, p.external_payment_id)) (fun x => rfl) _
  · intro pid uid g db2 pr h
    rcases refund_payment_ok_inv h with ⟨p, -, -, -, rfl⟩
    unfold payments_extid
    exact updateFirst_map _
      (fun q : Payment => { q with status := PaymentStatus.refunded })
      (fun p : Payment => (p.id, p.external_payment_id)) (fun x => rfl) _
  · intro pd uid db2 resp h
    rcases create_payment_ok_inv h with ⟨order, -, rfl⟩
    unfold payments_extid
    rw [List.map_append]
    rfl
  · intro u db2 oid h
    rcases create_order_ok_inv h with ⟨cart, -, -, -, -, -, rfl⟩
    rfl
  · intro oid st uid db2 r h
    rcases update_order_status_ok_inv h with ⟨s, order, -, -, rfl⟩
    rfl
  · intro oid uid db2 r h
    rcases cancel_order_ok_inv h with ⟨order, -, rfl⟩
    rfl
  · intro oid uid db2 h
    rcases delete_order_ok_inv h with ⟨order, -, rfl⟩
    exact List.Sublist.map _ (List.filter_sublist _)

/-- C7 amended, witnessed: the first `create_payment` on the fixture appends
`(3, some "pi_dup")` to the projection. -/
theorem external_payment_id_set_once_witness :
    (create_payment c7Req 1 c7DB).2 = Except.ok (c7DB1, c7Resp1) ∧
    payments_extid c7DB1 =
      payments_extid c7DB ++ [(c7DB.next_id, some c7Req.external_payment_id)] :=
  ⟨rfl, (external_payment_id_set_once c7DB).2.2.1 c7Req 1 c7DB1 c7Resp1 rfl⟩

/-- C9: when the user has no pending order and a non-empty cart in which at
least one item's movie is gone from the catalog but at least one still
exists, `create_order` succeeds: the new order carries order items exactly
for the still-existing movies, its `total_amount` is the sum of their
current prices, the whole cart — including the items whose movies no longer
exist — is deleted, and no error is reported for the dropped items. -/
theorem c9_partial_cart_checkout
    (db : DB) (u : Nat) (cart : Cart)
    (hwf : DB.wf db)
    (hnop : (db.orders.filter
        (fun o => o.user_id == u && o.status == OrderStatus.PENDING)).isEmpty = true)
    (hcart : fetch_existing_cart u db = some cart)
    (hitems : (cart_items_of db cart).isEmpty = false)
    (hmovies : (movies_in_cart_of db cart).isEmpty = false)
    (_hdropped : ∃ ci ∈ cart_items_of db cart, ∀ m ∈ db.movies, ¬ m.id = ci.movie_id) :
    create_order u db = Except.ok (created_db_of db u cart, db.next_id) ∧
    ((created_db_of db u cart).order_items.filter
        (fun i => i.order_id == db.next_id)).map OrderItem.movie_id =
      (movies_in_cart_of db cart).map Movie.id ∧
    ((created_db_of db u cart).orders.filter
        (fun o => o.id == db.next_id)).map Order.total_amount =
      [((movies_in_cart_of db cart).map Movie.price).sum] ∧
    (created_db_of db u cart).cart_items =
      db.cart_items.filter (fun ci => !(ci.cart_id == cart.id)) ∧
    (created_db_of db u cart).carts = db.carts.erase cart := by
  have holditems : db.order_items.filter (fun i => i.order_id == db.next_id) = [] := by
    refine List.filter_eq_nil_iff.mpr (fun i hi => ?_)
    have hlt := hwf.2.1 i hi
    simp [Nat.ne_of_lt hlt]
  have hnewitems : (new_items_of db cart).filter
      (fun i => i.order_id == db.next_id) = new_items_of db cart := by
    refine List.filter_eq_self.mpr (fun i hi => ?_)
    simp [new_items_order_id db cart i hi]
  have holdorders : db.orders.filter (fun o => o.id == db.next_id) = [] := by
    refine List.filter_eq_nil_iff.mpr (fun o ho => ?_)
    have hlt := hwf.1 o ho
    simp [Nat.ne_of_lt hlt]
  refine ⟨create_order_eq_ok u db cart hnop hcart hitems hmovies, ?_, ?_, rfl, rfl⟩
  · show ((db.order_items ++ new_items_of db cart).filter
        (fun i => i.order_id == db.next_id)).map OrderItem.movie_id = _
    rw [List.filter_append, holditems, hnewitems, List.nil_append,
      new_items_map_movie_id]
  · show ((db.orders ++ [new_order_of db u cart]).filter
        (fun o => o.id == db.next_id)).map Order.total_amount = _
    rw [List.filter_append, holdorders, List.nil_append]
    simp [new_order_of]

/-- C9, witnessed on the fixture: the cart holds movies 10 (in the catalog)
and 11 (gone); checkout succeeds with exactly movie 10 ordered and the whole
cart deleted. -/
theorem c9_partial_cart_checkout_witness :
    DB.wf c9DB ∧
    fetch_existing_cart 1 c9DB = some c9Cart ∧
    (∃ ci ∈ cart_items_of c9DB c9Cart, ∀ m ∈ c9DB.movies, ¬ m.id = ci.movie_id) ∧
    create_order 1 c9DB = Except.ok (created_db_of c9DB 1 c9Cart, c9DB.next_id) ∧
    ((created_db_of c9DB 1 c9Cart).order_items.filter
        (fun i => i.order_id == c9DB.next_id)).map OrderItem.movie_id = [10] :=
  ⟨by unfold DB.wf; decide, rfl, by decide,
    (c9_partial_cart_checkout c9DB 1 c9Cart (by unfold DB.wf; decide)
        rfl rfl rfl rfl (by decide)).1,
    ((c9_partial_cart_checkout c9DB 1 c9Cart (by unfold DB.wf; decide)
        rfl rfl rfl rfl (by decide)).2.1).trans rfl⟩

/-- A successful `create_order` commits a well-formed state: the new primary
key is the old counter value, strictly below the new counter, and distinct
from all existing keys. -/
theorem created_db_wf (db : DB) (u : Nat) (cart : Cart) (hwf : DB.wf db) :
    DB.wf (created_db_of db u cart) := by
  obtain ⟨hbo, hbi, hnd⟩ := hwf
  unfold created_db_of DB.wf
  dsimp only
  refine ⟨?_, ?_, ?_⟩
  · intro o ho
    rcases List.mem_append.mp ho with h1 | h1
    · have := hbo o h1
      omega
    · have he : o = new_order_of db u cart := by simpa using h1
      subst he
      show db.next_id < db.next_id + 1 + (movies_in_cart_of db cart).length
      omega
  · intro i hi
    rcases List.mem_append.mp hi with h1 | h1
    · have := hbi i h1
      omega
    · have := new_items_order_id db cart i h1
      omega
  · rw [List.map_append]
    refine List.Nodup.append hnd (by simp) ?_
    intro a ha hb
    rcases List.mem_map.mp ha with ⟨o, ho, rfl⟩
    have h1 := hbo o ho
    have h2 : o.id = (new_order_of db u cart).id := by simpa using hb
    have h3 : (new_order_of db u cart).id = db.next_id := rfl
    omega

/-- A successful `create_order` preserves the total/price ledger invariant:
the new order's `total_amount` is exactly the sum of its own items' price
snapshots, and no existing order gains or loses items. -/
theorem created_db_consistent (db : DB) (u : Nat) (cart : Cart)
    (hwf : DB.wf db) (hoc : orders_consistent db) :
    orders_consistent (created_db_of db u cart) := by
  obtain ⟨hbo, hbi, hnd⟩ := hwf
  intro o2 ho2
  unfold created_db_of at ho2 ⊢
  dsimp only at ho2 ⊢
  rcases List.mem_append.mp ho2 with h1 | h1
  · have hlt := hbo o2 h1
    have hnew : (new_items_of db cart).filter (fun i => i.order_id == o2.id) = [] := by
      refine List.filter_eq_nil_iff.mpr (fun i hi => ?_)
      have := new_items_order_id db cart i hi
      simp only [this, beq_iff_eq]
      omega
    rw [List.filter_append, hnew, List.append_nil]
    exact hoc o2 h1
  · have he : o2 = new_order_of db u cart := by simpa using h1
    subst he
    have hold : db.order_items.filter
        (fun i => i.order_id == (new_order_of db u cart).id) = [] := by
      refine List.filter_eq_nil_iff.mpr (fun i hi => ?_)
      have := hbi i hi
      show ¬(i.order_id == db.next_id) = true
      simp only [beq_iff_eq]
      omega
    have hnew : (new_items_of db cart).filter
        (fun i => i.order_id == (new_order_of db u cart).id) = new_items_of db cart := by
      refine List.filter_eq_self.mpr (fun i hi => ?_)
      have := new_items_order_id db cart i hi
      show (i.order_id == db.next_id) = true
      simp [this]
    rw [List.filter_append, hold, hnew, List.nil_append, new_items_map_price]
    rfl

/-- Rewriting the status field of some orders changes neither the schema
well-formedness nor the total/price ledger invariant. -/
theorem status_update_wf_consistent (db : DB) (hwf : DB.wf db)
    (hoc : orders_consistent db) (pred : Order → Bool) (s : OrderStatus) :
    DB.wf { db with
            orders := updateFirst pred (fun o => { o with status := s }) db.orders } ∧
    orders_consistent { db with
            orders := updateFirst pred (fun o => { o with status := s }) db.orders } := by
  obtain ⟨hbo, hbi, hnd⟩ := hwf
  constructor
  · refine ⟨?_, hbi, ?_⟩
    · intro o ho
      dsimp only at ho
      rcases mem_updateFirst ho with h1 | ⟨y, hy, rfl⟩
      · exact hbo o h1
      · exact hbo y hy
    · show ((updateFirst pred (fun o : Order => { o with status := s }) db.orders).map
          Order.id).Nodup
      rw [updateFirst_map pred (fun o : Order => { o with status := s }) Order.id
        (fun x => rfl)]
      exact hnd
  · intro o2 ho2
    dsimp only at ho2
    rcases mem_updateFirst ho2 with h1 | ⟨y, hy, rfl⟩
    · exact hoc o2 h1
    · exact hoc y hy

/-- C5: the ledger invariant `total_amount = Σ price_at_order` holds for the
order a successful `create_order` commits, and every operation of the system
preserves it: the status mutators rewrite only status fields, the delete
path removes whole rows, and the payment-side operations leave orders and
order items untouched — no operation ever changes a `total_amount` or a
`price_at_order`. -/
theorem c5_order_total_invariant (db : DB) (hwf : DB.wf db)
    (hoc : orders_consistent db) :
    (∀ u db2 oid, create_order u db = Except.ok (db2, oid) →
        DB.wf db2 ∧ orders_consistent db2 ∧
        ∃ o, db2.orders = db.orders ++ [o] ∧ o.id = oid)
  ∧ (∀ oid st uid db2 r, update_order_status oid st uid db = Except.ok (db2, r) →
        DB.wf db2 ∧ orders_consistent db2 ∧ db2.order_items = db.order_items ∧
        db2.orders.map (fun o => (o.id, o.total_amount)) =
          db.orders.map (fun o => (o.id, o.total_amount)))
  ∧ (∀ oid uid db2 r, cancel_order oid uid db = Except.ok (db2, r) →
        DB.wf db2 ∧ orders_consistent db2 ∧ db2.order_items = db.order_items ∧
        db2.orders.map (fun o => (o.id, o.total_amount)) =
          db.orders.map (fun o => (o.id, o.total_amount)))
  ∧ (∀ oid uid db2, delete_order oid uid db = Except.ok db2 →
        DB.wf db2 ∧ orders_consistent db2 ∧
        db2.orders.Sublist db.orders ∧ db2.order_items.Sublist db.order_items)
  ∧ (∀ pd uid db2 resp, (create_payment pd uid db).2 = Except.ok (db2, resp) →
        DB.wf db2 ∧ orders_consistent db2 ∧
        db2.orders = db.orders ∧ db2.order_items = db.order_items)
  ∧ (∀ pid uid g db2 pr, (refund_payment pid uid g db).2 = Except.ok (db2, pr) →
        DB.wf db2 ∧ orders_consistent db2 ∧
        db2.orders = db.orders ∧ db2.order_items = db.order_items)
  ∧ (∀ ev db2 ack, stripe_webhook db ev = Except.ok (db2, ack) →
        DB.wf db2 ∧ orders_consistent db2 ∧
        db2.orders = db.orders ∧ db2.order_items = db.order_items) := by
  obtain ⟨hbo, hbi, hnd⟩ := hwf
  refine ⟨?_, ?_, ?_, ?_, ?_, ?_, ?_⟩
  · intro u db2 oid h
    rcases create_order_ok_inv h with ⟨cart, -, -, -, -, rfl, rfl⟩
    exact ⟨created_db_wf db u cart ⟨hbo, hbi, hnd⟩,
      created_db_consistent db u cart ⟨hbo, hbi, hnd⟩ hoc,
      new_order_of db u cart, rfl, rfl⟩
  · intro oid st uid db2 r h
    rcases update_order_status_ok_inv h with ⟨s, order, -, -, rfl⟩
    obtain ⟨h1, h2⟩ := status_update_wf_consistent db ⟨hbo, hbi, hnd⟩ hoc
      (fun o => o.id == oid) s
    exact ⟨h1, h2, rfl,
      updateFirst_map _ (fun o : Order => { o with status := s })
        (fun o : Order => (o.id, o.total_amount)) (fun x => rfl) db.orders⟩
  · intro oid uid db2 r h
    rcases cancel_order_ok_inv h with ⟨order, -, rfl⟩
    obtain ⟨h1, h2⟩ := status_update_wf_consistent db ⟨hbo, hbi, hnd⟩ hoc
      (fun o => o.id == oid) OrderStatus.CANCELED
    exact ⟨h1, h2, rfl,
      updateFirst_map _ (fun o : Order => { o with status := OrderStatus.CANCELED })
        (fun o : Order => (o.id, o.total_amount)) (fun x => rfl) db.orders⟩
  · intro oid uid db2 h
    rcases delete_order_ok_inv h with ⟨order, hfind, rfl⟩
    have hmem : order ∈ db.orders := List.mem_of_find?_eq_some hfind
    refine ⟨⟨?_, ?_, ?_⟩, ?_, List.erase_sublist order db.orders,
      List.filter_sublist db.order_items⟩
    · intro o ho
      dsimp only at ho
      exact hbo o ((List.erase_sublist order db.orders).subset ho)
    · intro i hi
      dsimp only at hi
      exact hbi i ((List.filter_sublist db.order_items).subset hi)
    · show ((db.orders.erase order).map Order.id).Nodup
      exact List.Nodup.sublist
        (List.Sublist.map Order.id (List.erase_sublist order db.orders)) hnd
    · intro o2 ho2
      dsimp only at ho2 ⊢
      have ho2m : o2 ∈ db.orders := (List.erase_sublist order db.orders).subset ho2
      have hne : o2.id ≠ order.id := by
        rcases List.exists_erase_eq hmem with ⟨l1, l2, -, hdecomp, herase⟩
        have hnd2 := hnd
        rw [hdecomp, List.map_append, List.map_cons] at hnd2
        have hnotin : order.id ∉ l1.map Order.id ++ l2.map Order.id :=
          (List.nodup_cons.mp (List.nodup_middle.mp hnd2)).1
        rw [herase] at ho2
        intro heq
        apply hnotin
        rw [← List.map_append]
        exact heq ▸ List.mem_map_of_mem Order.id ho2
      rw [List.filter_filter]
      have hcong : ∀ i ∈ db.order_items,
          ((i.order_id == o2.id) && !(i.order_id == order.id)) =
            (i.order_id == o2.id) := by
        intro i hi
        cases hq : (i.order_id == o2.id) with
        | false => simp
        | true =>
          have hiq : i.order_id = o2.id := by simpa using hq
          simp [hiq, hne]
      rw [List.filter_congr hcong]
      exact hoc o2 ho2m
  · intro pd uid db2 resp h
    rcases create_payment_ok_inv h with ⟨order, -, rfl⟩
    refine ⟨⟨?_, ?_, hnd⟩, hoc, rfl, rfl⟩
    · intro o ho
      dsimp only at ho ⊢
      have := hbo o ho
      omega
    · intro i hi
      dsimp only at hi ⊢
      have := hbi i hi
      omega
  · intro pid uid g db2 pr h
    rcases refund_payment_ok_inv h with ⟨p, -, -, -, rfl⟩
    exact ⟨⟨hbo, hbi, hnd⟩, hoc, rfl, rfl⟩
  · intro ev db2 ack h
    rcases stripe_webhook_ok_inv h with ⟨-, rfl⟩ | ⟨s, p, -, -, rfl⟩
    · exact ⟨⟨hbo, hbi, hnd⟩, hoc, rfl, rfl⟩
    · exact ⟨⟨hbo, hbi, hnd⟩, hoc, rfl, rfl⟩

/-- C5, witnessed on the fixture: the checkout of `c5DB` commits a state that
is well-formed and satisfies the ledger invariant. -/
theorem c5_order_total_invariant_witness :
    DB.wf c5DB ∧ orders_consistent c5DB ∧
    DB.wf (applyCreateOrder 1 c5DB) ∧ orders_consistent (applyCreateOrder 1 c5DB) := by
  have hw : DB.wf c5DB := by
    unfold DB.wf
    decide
  have hc : orders_consistent c5DB := by
    unfold orders_consistent
    decide
  have happ := (c5_order_total_invariant c5DB hw hc).1 1 (applyCreateOrder 1 c5DB)
    c5DB.next_id rfl
  exact ⟨hw, hc, happ.1, happ.2.1⟩

end OnlineCinema
